import Mathlib

/-!
Shallow embedding of the encrypted-handle synchronization engine of
`src/frontend/hooks/useFocusSession.tsx` (the `useFocusSession` React hook).

Modelling conventions:
* A contract handle (`string` in the source, with `ethers.ZeroHash` as the
  reserved null handle) is a `Nat`, `0` standing for `ethers.ZeroHash`.
  A React state slot holding `string | undefined` becomes `Option Nat`.
* Clear values (`ClearValueType = { handle, clear }`) become `ClearValue`.
* The hook's React state plus the three mutable refs
  (`isRefreshingRef`, `isDecryptingRef`, `isLoggingRef`) form `EngineState`.
* Status messages (`setMessage` call sites) are an inductive `Msg`, one
  constructor per distinct message produced by the source.
* Each asynchronous operation is split at its `await` suspension points into
  an entry function (the synchronous prefix up to the first `await`) and a
  completion function taking the outcomes of the awaited calls plus the live
  context observed at each resumption point.  Between two `await`s JavaScript
  runs to completion, so no context change can interleave there.
-/

/-- Status messages: one constructor per `setMessage` site of the hook whose
value can be the final message of an entry or completion step. -/
inductive Msg where
  | empty
  | fetching
  | welcome
  | loaded
  | networkError
  | contractNotFound
  | readyToStart
  | noDataToDecrypt
  | startingDecryption
  | unableToBuildSig
  | decryptionCancelled
  | noEncryptedData
  | decryptionCompleted
  | decryptFailSignature
  | decryptFailPermission
  | decryptFailNetwork
  | decryptFailOther (e : String)
  | encryptingMinutes (m : Int)
  | opCancelled
  | sessionLogged (status : Option Nat)
  | logCancelledByUser
  | logInsufficient
  | logNetwork
  | logFailed (e : String)
  | encryptingGoal (g : Int)
  | goalSet (status : Option Nat)
  | goalCancelledByUser
  | goalInsufficient
  | goalFailed (e : String)
  | cannotReset
  | resetting
  | statsReset (status : Option Nat)
  | failedReset (e : String)
deriving DecidableEq

/-- Mirror of `ClearValueType`: a decrypted clear value paired with the handle
it was decrypted from. -/
structure ClearValue where
  handle : Nat
  clear : Nat
deriving DecidableEq

/-- React state and refs of the hook relevant to the synchronization engine. -/
structure EngineState where
  sessionCountHandle : Option Nat
  totalMinutesHandle : Option Nat
  weeklyGoalHandle : Option Nat
  clearSessionCount : Option ClearValue
  clearTotalMinutes : Option ClearValue
  clearWeeklyGoal : Option ClearValue
  isRefreshing : Bool
  isDecrypting : Bool
  isLogging : Bool
  isSettingGoal : Bool
  isResetting : Bool
  isRefreshingRef : Bool
  isDecryptingRef : Bool
  isLoggingRef : Bool
  message : Msg
deriving DecidableEq

/-- Projection of the handle cache and clear-value cache of an `EngineState`
(the six cache slots, excluding flags and message). -/
structure Caches where
  sessionCountHandle : Option Nat
  totalMinutesHandle : Option Nat
  weeklyGoalHandle : Option Nat
  clearSessionCount : Option ClearValue
  clearTotalMinutes : Option ClearValue
  clearWeeklyGoal : Option ClearValue
deriving DecidableEq

def caches (s : EngineState) : Caches :=
  ⟨s.sessionCountHandle, s.totalMinutesHandle, s.weeklyGoalHandle,
   s.clearSessionCount, s.clearTotalMinutes, s.clearWeeklyGoal⟩

/-- Live synchronization context of the hook: resolved contract metadata
(`focusSessionRef.current` chainId/address), the connected signer, and
whether an FHEVM instance is available. -/
structure Ctx where
  chainId : Option Nat
  address : Option Nat
  signer : Option Nat
  fhevmInstance : Bool
deriving DecidableEq

/-- Context snapshot captured by `decryptStats` / `logSession` /
`setWeeklyGoal` / `resetStats` (`thisChainId`, `thisAddress`,
`thisEthersSigner` in the source). -/
structure Snap where
  chainId : Option Nat
  address : Nat
  signer : Nat
deriving DecidableEq

/-- Mirror of the `isStale` closures: stale iff the snapshotted address no
longer equals the live resolved address, or `sameChain` / `sameSigner`
report a change. -/
def isStaleS (p : Snap) (live : Ctx) : Bool :=
  !(live.address == some p.address) || !(live.chainId == p.chainId) ||
    !(live.signer == some p.signer)

/-- Context snapshot captured by `refreshHandles` (`currentChainId`,
`currentContractAddress`); note it does NOT capture the signer. -/
structure RefreshSnap where
  chainId : Nat
  address : Nat
deriving DecidableEq

/-- Mirror of `isStillValid` in `refreshHandles`:
`sameChain.current(currentChainId) && currentContractAddress ===
focusSessionRef.current?.address`.  Only chain and contract address are
compared; the signer is not part of this check. -/
def refreshStillValid (p : RefreshSnap) (live : Ctx) : Bool :=
  (live.chainId == some p.chainId) && (live.address == some p.address)

/-- Character-list prefix test (helper for `containsSub`). -/
def leadsWith : List Char → List Char → Bool
  | [], _ => true
  | _ :: _, [] => false
  | a :: as, b :: bs => a == b && leadsWith as bs

/-- Character-list contiguous-sublist test (helper for `containsSub`). -/
def subListOf (pat : List Char) : List Char → Bool
  | [] => leadsWith pat []
  | c :: cs => leadsWith pat (c :: cs) || subListOf pat cs

/-- Substring test used to model the `errorMessage.includes(...)` calls. -/
def containsSub (s pat : String) : Bool :=
  subListOf pat.toList s.toList

/-- Raw result of one contract getter call inside `safeGetEuint32`:
an error, a falsy/uninitialized payload (`"0x"`, `""`, `undefined`), or a
proper handle. -/
abbrev RawFetch := Except String (Option Nat)

/-- Mirror of `safeGetEuint32`: converts a thrown error or a falsy payload to
the null handle (`ethers.ZeroHash`, modelled as `0`), else returns the
handle unchanged. -/
def safeGetEuint32 : RawFetch → Nat
  | .error _ => 0
  | .ok none => 0
  | .ok (some h) => h

/-- Mirror of the `hasData` memo:
`sessionCountHandle !== undefined && sessionCountHandle !== ethers.ZeroHash`. -/
def hasData (s : EngineState) : Bool :=
  match s.sessionCountHandle with
  | none => false
  | some h => decide (h ≠ 0)

/-- Mirror of the `isDecrypted` memo: `false` when the session-count handle is
absent; `true` when it is the null handle; otherwise the session handle must
match its cached clear value and the total-minutes handle, when present, must
match its cached clear value.  The weekly-goal slots are not read. -/
def isDecrypted (s : EngineState) : Bool :=
  match s.sessionCountHandle with
  | none => false
  | some h =>
    if h = 0 then true
    else
      decide (s.clearSessionCount.map ClearValue.handle = some h) &&
        (match s.totalMinutesHandle with
         | none => true
         | some m => decide (s.clearTotalMinutes.map ClearValue.handle = some m))

/-- Outcome of the `Promise.all` of the three `safeGetEuint32` calls in
`refreshHandles`: either the three raw getter results, or a rejection
(handled by the `.catch` branch of the source). -/
inductive FetchOutcome where
  | ok (r1 r2 r3 : RawFetch)
  | err (e : String)

/-- Mirror of the error-message classification in `refreshHandles`'s
`.catch` branch. -/
def classifyRefreshError (e : String) : Msg :=
  if containsSub e "network" then .networkError
  else if containsSub e "contract" then .contractNotFound
  else .readyToStart

/-- Entry of `refreshHandles` (the synchronous prefix): drop when a refresh is
already in flight; clear the handles and bail when chainId, address or signer
is unavailable; otherwise set the busy flag, post the fetching message and
snapshot the context.  Returns the updated state and the snapshot when the
fetch was actually issued. -/
def refreshStart (s : EngineState) (ctx : Ctx) : EngineState × Option RefreshSnap :=
  if s.isRefreshingRef then (s, none)
  else
    match ctx.chainId, ctx.address, ctx.signer with
    | some c, some a, some _ =>
      if c = 0 then
        ({ s with sessionCountHandle := none, totalMinutesHandle := none,
                  weeklyGoalHandle := none }, none)
      else
        ({ s with isRefreshingRef := true, isRefreshing := true,
                  message := .fetching }, some ⟨c, a⟩)
    | _, _, _ =>
      ({ s with sessionCountHandle := none, totalMinutesHandle := none,
                weeklyGoalHandle := none }, none)

/-- Completion of `refreshHandles`: the `.then` branch commits the fetched
handles only when `isStillValid` holds (seeding zero clear values when the
primary handle is null), while the `.catch` branch overwrites all handles
with the null handle and seeds zero clear values without any context check.
Both branches release the busy flag. -/
def refreshComplete (s : EngineState) (p : RefreshSnap) (live : Ctx)
    (out : FetchOutcome) : EngineState :=
  match out with
  | .ok r1 r2 r3 =>
    let h1 := safeGetEuint32 r1
    let h2 := safeGetEuint32 r2
    let h3 := safeGetEuint32 r3
    let s1 :=
      if refreshStillValid p live then
        let s' := { s with sessionCountHandle := some h1,
                           totalMinutesHandle := some h2,
                           weeklyGoalHandle := some h3 }
        if h1 = 0 then
          { s' with clearSessionCount := some ⟨h1, 0⟩,
                    clearTotalMinutes := some ⟨h2, 0⟩,
                    clearWeeklyGoal := some ⟨h3, 0⟩,
                    message := .welcome }
        else { s' with message := .loaded }
      else s
    { s1 with isRefreshingRef := false, isRefreshing := false }
  | .err e =>
    { s with sessionCountHandle := some 0, totalMinutesHandle := some 0,
             weeklyGoalHandle := some 0,
             clearSessionCount := some ⟨0, 0⟩,
             clearTotalMinutes := some ⟨0, 0⟩,
             clearWeeklyGoal := some ⟨0, 0⟩,
             message := classifyRefreshError e,
             isRefreshingRef := false, isRefreshing := false }

/-- Context-plus-handles snapshot captured by the `decryptStats` closure:
`thisChainId`, `thisAddress`, `thisEthersSigner`, plus the render's
`sessionCountHandle`, `totalMinutesHandle`, `weeklyGoalHandle`. -/
structure DecrSnap where
  snap : Snap
  sh : Option Nat
  th : Option Nat
  wh : Option Nat
deriving DecidableEq

/-- One entry of the `handlesToDecrypt` list: pushed when the handle is
truthy and not `ethers.ZeroHash`. -/
def decryptEntry (o : Option Nat) (a : Nat) : List (Nat × Nat) :=
  match o with
  | some h => if h = 0 then [] else [(h, a)]
  | none => []

/-- Mirror of the `handlesToDecrypt` construction in `decryptStats`: every
snapshotted handle that is present and non-null, each paired with the
snapshotted contract address.  No freshness filtering is performed. -/
def handlesToDecrypt (p : DecrSnap) : List (Nat × Nat) :=
  decryptEntry p.sh p.snap.address ++ decryptEntry p.th p.snap.address ++
    decryptEntry p.wh p.snap.address

/-- Environment of one run of `decryptStats`: the outcome of
`FhevmDecryptionSignature.loadOrSign` (throw, `null`, or a signature), the
live context at the resumption point after it, the outcome of
`instance.userDecrypt` (throw, or a handle-to-clear-value map), and the live
context at the resumption point after that. -/
structure DecrEnv where
  sigR : Except String Bool
  ctx1 : Ctx
  decR : Except String (Nat → Option Nat)
  ctx2 : Ctx

/-- Result of one run of `decryptStats`: the final engine state, and whether
`instance.userDecrypt` (the decryption capability) was invoked. -/
structure DecrOut where
  state : EngineState
  invoked : Bool

/-- Mirror of the error-message classification in the `catch` branch of
`decryptStats`. -/
def classifyDecryptError (e : String) : Msg :=
  if containsSub e "signature" || containsSub e "sign" then .decryptFailSignature
  else if containsSub e "permission" || containsSub e "allow" then .decryptFailPermission
  else if containsSub e "network" then .decryptFailNetwork
  else .decryptFailOther e

/-- Entry of `decryptStats` (synchronous prefix): drop when a refresh or a
decrypt is in flight; drop when address, FHEVM instance or signer is
unavailable; when the session-count handle is the null handle, seed zero
clear values and post a message without starting a run; otherwise set the
busy flag, post the starting message and snapshot context and handles. -/
def decryptStart (s : EngineState) (ctx : Ctx) : EngineState × Option DecrSnap :=
  if s.isRefreshingRef || s.isDecryptingRef then (s, none)
  else
    match ctx.address, ctx.signer with
    | some a, some w =>
      if !ctx.fhevmInstance then (s, none)
      else if s.sessionCountHandle = some 0 then
        ({ s with clearSessionCount := some ⟨0, 0⟩,
                  clearTotalMinutes := some ⟨s.totalMinutesHandle.getD 0, 0⟩,
                  clearWeeklyGoal := some ⟨s.weeklyGoalHandle.getD 0, 0⟩,
                  message := .noDataToDecrypt }, none)
      else
        ({ s with isDecryptingRef := true, isDecrypting := true,
                  message := .startingDecryption },
         some ⟨⟨ctx.chainId, a, w⟩, s.sessionCountHandle,
               s.totalMinutesHandle, s.weeklyGoalHandle⟩)
    | _, _ => (s, none)

/-- Release of the decrypt busy flag performed by the `finally` block of
`decryptStats`. -/
def decryptFinally (s : EngineState) : EngineState :=
  { s with isDecryptingRef := false, isDecrypting := false }

/-- Run of `decryptStats` after a successful entry: obtain the signature
(null or throw ends the run), re-check staleness, build `handlesToDecrypt`,
seed zeros when it is empty, else invoke `userDecrypt`, re-check staleness,
and commit each snapshotted handle's clear value keyed to that snapshotted
handle.  The `finally` release is applied on every path. -/
def decryptRun (s : EngineState) (p : DecrSnap) (env : DecrEnv) : DecrOut :=
  match env.sigR with
  | .error e => ⟨decryptFinally { s with message := classifyDecryptError e }, false⟩
  | .ok false => ⟨decryptFinally { s with message := .unableToBuildSig }, false⟩
  | .ok true =>
    if isStaleS p.snap env.ctx1 then
      ⟨decryptFinally { s with message := .decryptionCancelled }, false⟩
    else if handlesToDecrypt p = [] then
      ⟨decryptFinally
        { s with clearSessionCount := some ⟨p.sh.getD 0, 0⟩,
                 clearTotalMinutes := some ⟨p.th.getD 0, 0⟩,
                 clearWeeklyGoal := some ⟨p.wh.getD 0, 0⟩,
                 message := .noEncryptedData }, false⟩
    else
      match env.decR with
      | .error e => ⟨decryptFinally { s with message := classifyDecryptError e }, true⟩
      | .ok res =>
        if isStaleS p.snap env.ctx2 then
          ⟨decryptFinally { s with message := .decryptionCancelled }, true⟩
        else
          let s1 := match p.sh with
            | some h => { s with clearSessionCount := some ⟨h, (res h).getD 0⟩ }
            | none => s
          let s2 := match p.th with
            | some h => { s1 with clearTotalMinutes := some ⟨h, (res h).getD 0⟩ }
            | none => s1
          let s3 := match p.wh with
            | some h => { s2 with clearWeeklyGoal := some ⟨h, (res h).getD 0⟩ }
            | none => s2
          ⟨decryptFinally { s3 with message := .decryptionCompleted }, true⟩

/-- Environment of one run of `logSession` / `setWeeklyGoal`: the outcome of
`input.encrypt()`, the live context at the resumption point after it, the
merged outcome of the transaction submission and `tx.wait()` (either throws
into the same `catch`; on success the receipt status), and the live context
at the resumption point after the wait. -/
structure MutEnv where
  encR : Except String Unit
  ctx1 : Ctx
  txR : Except String (Option Nat)
  ctx2 : Ctx

/-- Result of one mutation run: the final engine state, the error re-thrown
to the caller (if any), and whether `refreshHandles()` was triggered. -/
structure MutResult where
  state : EngineState
  thrown : Option String
  refreshed : Bool

/-- Mirror of the error-message classification in the `catch` branch of
`logSession`. -/
def classifyLogError (e : String) : Msg :=
  if containsSub e "user rejected" || containsSub e "denied" then .logCancelledByUser
  else if containsSub e "gas" || containsSub e "fee" then .logInsufficient
  else if containsSub e "network" then .logNetwork
  else .logFailed e

/-- Entry of `logSession` (synchronous prefix): drop when a refresh or a log
is in flight; drop silently when address, FHEVM instance or signer is
unavailable or `minutes <= 0`; otherwise set the busy flag, post the
encrypting message and snapshot the context. -/
def logSessionStart (s : EngineState) (ctx : Ctx) (minutes : Int) :
    EngineState × Option Snap :=
  if s.isRefreshingRef || s.isLoggingRef then (s, none)
  else
    match ctx.address, ctx.signer with
    | some a, some w =>
      if !ctx.fhevmInstance || minutes ≤ 0 then (s, none)
      else
        ({ s with isLoggingRef := true, isLogging := true,
                  message := .encryptingMinutes minutes },
         some ⟨ctx.chainId, a, w⟩)
    | _, _ => (s, none)

/-- Run of `logSession` after a successful entry: encrypt (throw goes to the
`catch`, which classifies the message and re-throws), re-check staleness,
submit and await the transaction (throw re-thrown likewise), re-check
staleness, and on success clear all three clear-value slots and trigger
`refreshHandles()`.  The `finally` release is applied on every path. -/
def logRun (s : EngineState) (p : Snap) (env : MutEnv) : MutResult :=
  let fin := fun (st : EngineState) => { st with isLoggingRef := false, isLogging := false }
  match env.encR with
  | .error e => ⟨fin { s with message := classifyLogError e }, some e, false⟩
  | .ok _ =>
    if isStaleS p env.ctx1 then ⟨fin { s with message := .opCancelled }, none, false⟩
    else
      match env.txR with
      | .error e => ⟨fin { s with message := classifyLogError e }, some e, false⟩
      | .ok status =>
        if isStaleS p env.ctx2 then
          ⟨fin { s with message := .sessionLogged status }, none, false⟩
        else
          ⟨fin { s with message := .sessionLogged status,
                        clearSessionCount := none, clearTotalMinutes := none,
                        clearWeeklyGoal := none }, none, true⟩

/-- Mirror of the error-message classification in the `catch` branch of
`setWeeklyGoal` (note: unlike `logSession`, it has no network case). -/
def classifyGoalError (e : String) : Msg :=
  if containsSub e "user rejected" || containsSub e "denied" then .goalCancelledByUser
  else if containsSub e "gas" || containsSub e "fee" then .goalInsufficient
  else .goalFailed e

/-- Entry of `setWeeklyGoal` (synchronous prefix): drop silently when address,
FHEVM instance or signer is unavailable or `goalMinutes <= 0`; otherwise set
`isSettingGoal`, post the encrypting message and snapshot the context.
There is NO busy-flag guard: a concurrent `setWeeklyGoal` is not dropped. -/
def setWeeklyGoalStart (s : EngineState) (ctx : Ctx) (goalMinutes : Int) :
    EngineState × Option Snap :=
  match ctx.address, ctx.signer with
  | some a, some w =>
    if !ctx.fhevmInstance || goalMinutes ≤ 0 then (s, none)
    else
      ({ s with isSettingGoal := true, message := .encryptingGoal goalMinutes },
       some ⟨ctx.chainId, a, w⟩)
  | _, _ => (s, none)

/-- Run of `setWeeklyGoal` after a successful entry: encrypt, re-check
staleness, submit and await the transaction, re-check staleness, and on
success clear only the weekly-goal clear value and trigger `refreshHandles()`.
Errors are classified and re-thrown; the `finally` release is applied on
every path. -/
def setWeeklyGoalRun (s : EngineState) (p : Snap) (env : MutEnv) : MutResult :=
  let fin := fun (st : EngineState) => { st with isSettingGoal := false }
  match env.encR with
  | .error e => ⟨fin { s with message := classifyGoalError e }, some e, false⟩
  | .ok _ =>
    if isStaleS p env.ctx1 then ⟨fin { s with message := .opCancelled }, none, false⟩
    else
      match env.txR with
      | .error e => ⟨fin { s with message := classifyGoalError e }, some e, false⟩
      | .ok status =>
        if isStaleS p env.ctx2 then
          ⟨fin { s with message := .goalSet status }, none, false⟩
        else
          ⟨fin { s with message := .goalSet status, clearWeeklyGoal := none },
           none, true⟩

/-- Environment of one run of `resetStats`: the merged outcome of the
transaction submission and `tx.wait()`, and the live context after it. -/
structure ResetEnv where
  txR : Except String (Option Nat)
  ctx2 : Ctx

/-- Entry of `resetStats` (synchronous prefix): when address or signer is
unavailable, post the cannot-reset message and stop; otherwise set
`isResetting`, post the resetting message and snapshot the context.
There is NO busy-flag guard. -/
def resetStart (s : EngineState) (ctx : Ctx) : EngineState × Option Snap :=
  match ctx.address, ctx.signer with
  | some a, some w =>
    ({ s with isResetting := true, message := .resetting }, some ⟨ctx.chainId, a, w⟩)
  | _, _ => ({ s with message := .cannotReset }, none)

/-- Run of `resetStats` after a successful entry: submit and await the
transaction, re-check staleness, and on success clear all six cache slots
and trigger `refreshHandles()`.  A failure only posts a message — the error
is swallowed, NOT re-thrown.  `isResetting` is released on every path. -/
def resetRun (s : EngineState) (p : Snap) (env : ResetEnv) : MutResult :=
  match env.txR with
  | .error e => ⟨{ s with message := .failedReset e, isResetting := false }, none, false⟩
  | .ok status =>
    if isStaleS p env.ctx2 then
      ⟨{ s with message := .statsReset status, isResetting := false }, none, false⟩
    else
      ⟨{ s with sessionCountHandle := none, totalMinutesHandle := none,
                weeklyGoalHandle := none, clearSessionCount := none,
                clearTotalMinutes := none, clearWeeklyGoal := none,
                message := .statsReset status, isResetting := false },
       none, true⟩

/-- Freshness of one counter in the words of the spec and of claim C2: a
counter with no handle does not block, the null handle is always fresh, and
otherwise the cached clear value's handle must equal the current handle. -/
def specCounterFresh (h : Option Nat) (c : Option ClearValue) : Bool :=
  match h with
  | none => true
  | some k => decide (k = 0) || decide (c.map ClearValue.handle = some k)

/-- Claim C2's definition of `isDecrypted`, following the claim's words: the
primary counter (`sessionCount`) is fresh (its cached clear value's handle
equals its current handle, or its handle is the null handle) AND every
counter with a non-null handle — including `weeklyGoal` — is fresh. -/
def specIsDecrypted (s : EngineState) : Bool :=
  specCounterFresh s.sessionCountHandle s.clearSessionCount &&
    specCounterFresh s.totalMinutesHandle s.clearTotalMinutes &&
    specCounterFresh s.weeklyGoalHandle s.clearWeeklyGoal

/-- One entry of claim C3's request set, following the claim's words: a
non-null handle that is not already fresh (its cached clear value's handle
differs from it). -/
def specRequestEntry (h : Option Nat) (c : Option ClearValue) (a : Nat) :
    List (Nat × Nat) :=
  match h with
  | some k =>
    if k ≠ 0 && !(c.map ClearValue.handle == some k) then [(k, a)] else []
  | none => []

/-- Claim C3's request set, following the claim's words: exactly the non-null
handles that are not already fresh, each paired with the contract address. -/
def specRequestSet (s : EngineState) (a : Nat) : List (Nat × Nat) :=
  specRequestEntry s.sessionCountHandle s.clearSessionCount a ++
    specRequestEntry s.totalMinutesHandle s.clearTotalMinutes a ++
    specRequestEntry s.weeklyGoalHandle s.clearWeeklyGoal a

/-- Engine state with empty caches, all flags clear and no message, as after
the initial render of the hook. -/
def idleState : EngineState :=
  { sessionCountHandle := none, totalMinutesHandle := none,
    weeklyGoalHandle := none, clearSessionCount := none,
    clearTotalMinutes := none, clearWeeklyGoal := none,
    isRefreshing := false, isDecrypting := false, isLogging := false,
    isSettingGoal := false, isResetting := false,
    isRefreshingRef := false, isDecryptingRef := false, isLoggingRef := false,
    message := .empty }

/-- Concrete live context used by witnesses: chain 1, contract 10, signer 100,
FHEVM instance available. -/
def ctxA : Ctx := ⟨some 1, some 10, some 100, true⟩

/-- Concrete live context differing from `ctxA` in chain, address and signer. -/
def ctxB : Ctx := ⟨some 2, some 20, some 200, true⟩

/-- Concrete mutation/decrypt context snapshot matching `ctxA`. -/
def snapA : Snap := ⟨some 1, 10, 100⟩

/-- Concrete refresh context snapshot matching `ctxA`. -/
def rsnapA : RefreshSnap := ⟨1, 10⟩

/-- Concrete state refuting C2: session count fresh, total minutes absent,
weekly goal present (handle 7) but never decrypted. -/
def c2state : EngineState :=
  { idleState with sessionCountHandle := some 5,
                   clearSessionCount := some ⟨5, 1⟩,
                   weeklyGoalHandle := some 7 }

/-- Concrete state refuting C3: session count not fresh (no cached clear
value), weekly goal fresh (handle 7 with matching clear value). -/
def c3state : EngineState :=
  { idleState with sessionCountHandle := some 5,
                   weeklyGoalHandle := some 7,
                   clearWeeklyGoal := some ⟨7, 2⟩ }

/-- Snapshot produced by `decryptStart c3state ctxA`. -/
def c3snap : DecrSnap := ⟨snapA, some 5, none, some 7⟩

/-- Concrete state in which every counter is non-null and already fresh
(as after a completed decrypt with no intervening mutation). -/
def c3freshState : EngineState :=
  { idleState with sessionCountHandle := some 5, totalMinutesHandle := some 6,
                   weeklyGoalHandle := some 7,
                   clearSessionCount := some ⟨5, 1⟩,
                   clearTotalMinutes := some ⟨6, 2⟩,
                   clearWeeklyGoal := some ⟨7, 3⟩ }

/-- Snapshot produced by `decryptStart c3freshState ctxA`. -/
def c3freshSnap : DecrSnap := ⟨snapA, some 5, some 6, some 7⟩

/-- Failure outcome of a `logSession` / `setWeeklyGoal` run: the error that
reaches the `catch` block, i.e. an encryption throw, or — when the first
staleness re-check passes — a submission/wait throw. -/
def mutFails (p : Snap) (env : MutEnv) : Option String :=
  match env.encR with
  | .error e => some e
  | .ok _ =>
    if isStaleS p env.ctx1 then none
    else
      match env.txR with
      | .error e => some e
      | .ok _ => none

/-- Concrete state with a weekly-goal mutation in flight. -/
def c6state : EngineState := { idleState with isSettingGoal := true }

/-- C9: on the rejection path of the combined handle fetch, `refreshHandles`
overwrites all three handles with the null handle and seeds all three clear
values to zero, for every prior state and every live context (no context
re-check), after which `hasData` is false and `isDecrypted` is true. -/
theorem c9_failed_refresh (s : EngineState) (p : RefreshSnap) (live : Ctx)
    (e : String) :
    (refreshComplete s p live (.err e)).sessionCountHandle = some 0 ∧
    (refreshComplete s p live (.err e)).totalMinutesHandle = some 0 ∧
    (refreshComplete s p live (.err e)).weeklyGoalHandle = some 0 ∧
    (refreshComplete s p live (.err e)).clearSessionCount = some ⟨0, 0⟩ ∧
    (refreshComplete s p live (.err e)).clearTotalMinutes = some ⟨0, 0⟩ ∧
    (refreshComplete s p live (.err e)).clearWeeklyGoal = some ⟨0, 0⟩ ∧
    hasData (refreshComplete s p live (.err e)) = false ∧
    isDecrypted (refreshComplete s p live (.err e)) = true :=
  ⟨rfl, rfl, rfl, rfl, rfl, rfl, rfl, rfl⟩

/-- C8: for an owner with no prior data — a completed refresh whose context is
still valid and whose primary fetched handle is the null handle — all three
clear values are seeded to zero, `hasData` is false, `isDecrypted` is true,
and the welcome message is posted.  The refresh path never consults the
decryption capability (its embedding takes no decryption environment). -/
theorem c8_fresh_owner (s : EngineState) (p : RefreshSnap) (live : Ctx)
    (r1 r2 r3 : RawFetch)
    (hvalid : refreshStillValid p live = true)
    (h0 : safeGetEuint32 r1 = 0) :
    hasData (refreshComplete s p live (.ok r1 r2 r3)) = false ∧
    isDecrypted (refreshComplete s p live (.ok r1 r2 r3)) = true ∧
    (refreshComplete s p live (.ok r1 r2 r3)).clearSessionCount = some ⟨0, 0⟩ ∧
    (refreshComplete s p live (.ok r1 r2 r3)).clearTotalMinutes
      = some ⟨safeGetEuint32 r2, 0⟩ ∧
    (refreshComplete s p live (.ok r1 r2 r3)).clearWeeklyGoal
      = some ⟨safeGetEuint32 r3, 0⟩ ∧
    (refreshComplete s p live (.ok r1 r2 r3)).message = .welcome := by
  simp only [refreshComplete, hvalid, h0, if_true, hasData, isDecrypted]
  simp

/-- C8 witness: concrete fresh-owner refresh completion. -/
theorem c8_fresh_owner_witness :
    refreshStillValid rsnapA ctxA = true ∧ safeGetEuint32 (.ok none) = 0 ∧
    (hasData (refreshComplete idleState rsnapA ctxA (.ok (.ok none) (.ok none) (.ok none))) = false ∧
     isDecrypted (refreshComplete idleState rsnapA ctxA (.ok (.ok none) (.ok none) (.ok none))) = true ∧
     (refreshComplete idleState rsnapA ctxA (.ok (.ok none) (.ok none) (.ok none))).clearSessionCount = some ⟨0, 0⟩ ∧
     (refreshComplete idleState rsnapA ctxA (.ok (.ok none) (.ok none) (.ok none))).clearTotalMinutes
       = some ⟨safeGetEuint32 (.ok none), 0⟩ ∧
     (refreshComplete idleState rsnapA ctxA (.ok (.ok none) (.ok none) (.ok none))).clearWeeklyGoal
       = some ⟨safeGetEuint32 (.ok none), 0⟩ ∧
     (refreshComplete idleState rsnapA ctxA (.ok (.ok none) (.ok none) (.ok none))).message = .welcome) :=
  ⟨by decide, by decide,
   c8_fresh_owner idleState rsnapA ctxA (.ok none) (.ok none) (.ok none)
     (by decide) (by decide)⟩

/-- C7: refresh degrades failures instead of throwing.  An individual getter
failure is converted to the null handle by `safeGetEuint32`, and on a
still-valid commit a first-counter failure does not prevent the other two
fetched handles from being committed; the combined-rejection path leaves
`hasData` false and posts one of the human-readable status messages.  The
refresh embedding is a total function into `EngineState` (no error result),
reflecting that `refreshHandles` never throws to its caller. -/
theorem c7_refresh_degrades (s : EngineState) (p : RefreshSnap) (live : Ctx)
    (e e' : String) (r2 r3 : RawFetch)
    (hvalid : refreshStillValid p live = true) :
    safeGetEuint32 (.error e) = 0 ∧
    (refreshComplete s p live (.ok (.error e) r2 r3)).sessionCountHandle = some 0 ∧
    (refreshComplete s p live (.ok (.error e) r2 r3)).totalMinutesHandle
      = some (safeGetEuint32 r2) ∧
    (refreshComplete s p live (.ok (.error e) r2 r3)).weeklyGoalHandle
      = some (safeGetEuint32 r3) ∧
    hasData (refreshComplete s p live (.err e')) = false ∧
    ((refreshComplete s p live (.err e')).message = .networkError ∨
     (refreshComplete s p live (.err e')).message = .contractNotFound ∨
     (refreshComplete s p live (.err e')).message = .readyToStart) := by
  refine ⟨rfl, ?_, ?_, ?_, rfl, ?_⟩
  · simp only [refreshComplete, hvalid, safeGetEuint32, if_true]
  · simp only [refreshComplete, hvalid, safeGetEuint32, if_true]
  · simp only [refreshComplete, hvalid, safeGetEuint32, if_true]
  · show classifyRefreshError e' = _ ∨ classifyRefreshError e' = _ ∨
      classifyRefreshError e' = _
    unfold classifyRefreshError
    split
    · exact Or.inl rfl
    · split
      · exact Or.inr (Or.inl rfl)
      · exact Or.inr (Or.inr rfl)

/-- C7 witness: concrete partially-failed and fully-failed refreshes. -/
theorem c7_refresh_degrades_witness :
    refreshStillValid rsnapA ctxA = true ∧
    (safeGetEuint32 (.error "read failed") = 0 ∧
     (refreshComplete idleState rsnapA ctxA (.ok (.error "read failed") (.ok (some 6)) (.ok (some 7)))).sessionCountHandle = some 0 ∧
     (refreshComplete idleState rsnapA ctxA (.ok (.error "read failed") (.ok (some 6)) (.ok (some 7)))).totalMinutesHandle
       = some (safeGetEuint32 (.ok (some 6))) ∧
     (refreshComplete idleState rsnapA ctxA (.ok (.error "read failed") (.ok (some 6)) (.ok (some 7)))).weeklyGoalHandle
       = some (safeGetEuint32 (.ok (some 7))) ∧
     hasData (refreshComplete idleState rsnapA ctxA (.err "network down")) = false ∧
     ((refreshComplete idleState rsnapA ctxA (.err "network down")).message = .networkError ∨
      (refreshComplete idleState rsnapA ctxA (.err "network down")).message = .contractNotFound ∨
      (refreshComplete idleState rsnapA ctxA (.err "network down")).message = .readyToStart)) :=
  ⟨by decide,
   c7_refresh_degrades idleState rsnapA ctxA "read failed" "network down"
     (.ok (some 6)) (.ok (some 7)) (by decide)⟩

/-- C10: a `logSession` call with `minutes <= 0`, or with the contract
address, FHEVM instance or signer unavailable, is a silent no-op — the state
(handles, clear values, busy flags, message) is returned unchanged and no
run is started (hence nothing is submitted and nothing can be thrown). -/
theorem c10_log_noop (s : EngineState) (ctx : Ctx) (m : Int)
    (h : ctx.address = none ∨ ctx.fhevmInstance = false ∨
         ctx.signer = none ∨ m ≤ 0) :
    logSessionStart s ctx m = (s, none) := by
  obtain ⟨cid, addr, sg, inst⟩ := ctx
  dsimp only at h
  unfold logSessionStart
  cases hB : (s.isRefreshingRef || s.isLoggingRef)
  · rcases h with h | h | h | h
    · subst h; simp [hB]
    · subst h; simp only [hB]
      cases addr <;> cases sg <;> simp
    · subst h; simp only [hB]
      cases addr <;> simp
    · simp only [hB]
      cases addr <;> cases sg <;> simp [h]
  · simp [hB]

/-- C10 witness: concrete no-op `logSession` call with negative minutes. -/
theorem c10_log_noop_witness :
    (ctxA.address = none ∨ ctxA.fhevmInstance = false ∨
     ctxA.signer = none ∨ (-5 : Int) ≤ 0) ∧
    logSessionStart idleState ctxA (-5) = (idleState, none) :=
  ⟨by decide, c10_log_noop idleState ctxA (-5) (by decide)⟩

/-- Helper: every path of `decryptRun` ends in the `finally` release of the
decrypt busy-flag ref. -/
theorem decryptRun_ref_false (s : EngineState) (p : DecrSnap) (env : DecrEnv) :
    (decryptRun s p env).state.isDecryptingRef = false := by
  obtain ⟨sig, c1, dec, c2⟩ := env
  cases sig with
  | error e => rfl
  | ok b =>
    cases b
    · rfl
    · by_cases h1 : isStaleS p.snap c1
      · simp [decryptRun, h1, decryptFinally]
      · by_cases he : handlesToDecrypt p = []
        · simp [decryptRun, h1, he, decryptFinally]
        · cases dec with
          | error e => simp [decryptRun, h1, he, decryptFinally]
          | ok res =>
            by_cases h2 : isStaleS p.snap c2
            · simp [decryptRun, h1, he, h2, decryptFinally]
            · simp [decryptRun, h1, he, h2, decryptFinally]

/-- Helper: every path of `decryptRun` ends in the `finally` release of the
decrypt busy state. -/
theorem decryptRun_busy_false (s : EngineState) (p : DecrSnap) (env : DecrEnv) :
    (decryptRun s p env).state.isDecrypting = false := by
  obtain ⟨sig, c1, dec, c2⟩ := env
  cases sig with
  | error e => rfl
  | ok b =>
    cases b
    · rfl
    · by_cases h1 : isStaleS p.snap c1
      · simp [decryptRun, h1, decryptFinally]
      · by_cases he : handlesToDecrypt p = []
        · simp [decryptRun, h1, he, decryptFinally]
        · cases dec with
          | error e => simp [decryptRun, h1, he, decryptFinally]
          | ok res =>
            by_cases h2 : isStaleS p.snap c2
            · simp [decryptRun, h1, he, h2, decryptFinally]
            · simp [decryptRun, h1, he, h2, decryptFinally]

/-- Helper: conjunction of the two release facts about `decryptRun`. -/
theorem decryptRun_releases (s : EngineState) (p : DecrSnap) (env : DecrEnv) :
    (decryptRun s p env).state.isDecryptingRef = false ∧
    (decryptRun s p env).state.isDecrypting = false :=
  ⟨decryptRun_ref_false s p env, decryptRun_busy_false s p env⟩

/-- C4: single-flight guards and unconditional release.  A refresh entered
while a refresh is in flight, and a decrypt entered while a decrypt is in
flight, return the state unchanged and start nothing; and both completion
functions release their busy flag and busy state on every path (success,
staleness discard, or failure). -/
theorem c4_single_flight (s1 s2 s3 s4 : EngineState) (ctxR ctxD : Ctx)
    (q : RefreshSnap) (live : Ctx) (out : FetchOutcome)
    (p : DecrSnap) (env : DecrEnv)
    (h1 : s1.isRefreshingRef = true) (h2 : s2.isDecryptingRef = true) :
    refreshStart s1 ctxR = (s1, none) ∧
    decryptStart s2 ctxD = (s2, none) ∧
    (refreshComplete s3 q live out).isRefreshingRef = false ∧
    (refreshComplete s3 q live out).isRefreshing = false ∧
    (decryptRun s4 p env).state.isDecryptingRef = false ∧
    (decryptRun s4 p env).state.isDecrypting = false := by
  refine ⟨?_, ?_, ?_, ?_, (decryptRun_releases s4 p env).1,
    (decryptRun_releases s4 p env).2⟩
  · simp [refreshStart, h1]
  · simp [decryptStart, h2]
  · cases out <;> rfl
  · cases out <;> rfl

/-- C4 witness: concrete busy-entry drops and concrete releases. -/
theorem c4_single_flight_witness :
    ({ idleState with isRefreshingRef := true } : EngineState).isRefreshingRef = true ∧
    ({ idleState with isDecryptingRef := true } : EngineState).isDecryptingRef = true ∧
    (refreshStart { idleState with isRefreshingRef := true } ctxA
       = ({ idleState with isRefreshingRef := true }, none) ∧
     decryptStart { idleState with isDecryptingRef := true } ctxA
       = ({ idleState with isDecryptingRef := true }, none) ∧
     (refreshComplete idleState rsnapA ctxA (.err "boom")).isRefreshingRef = false ∧
     (refreshComplete idleState rsnapA ctxA (.err "boom")).isRefreshing = false ∧
     (decryptRun idleState ⟨snapA, some 5, none, none⟩
        ⟨.ok true, ctxA, .ok (fun _ => some 1), ctxA⟩).state.isDecryptingRef = false ∧
     (decryptRun idleState ⟨snapA, some 5, none, none⟩
        ⟨.ok true, ctxA, .ok (fun _ => some 1), ctxA⟩).state.isDecrypting = false) :=
  ⟨by decide, by decide,
   c4_single_flight { idleState with isRefreshingRef := true }
     { idleState with isDecryptingRef := true } idleState idleState ctxA ctxA
     rsnapA ctxA (.err "boom") ⟨snapA, some 5, none, none⟩
     ⟨.ok true, ctxA, .ok (fun _ => some 1), ctxA⟩ (by decide) (by decide)⟩

/-- Helper: a decrypt run that observes a stale context at its first
resumption point (after the signature await) leaves the handle and
clear-value caches unchanged. -/
theorem decrypt_caches_stale1 (s : EngineState) (p : DecrSnap) (env : DecrEnv)
    (h1 : isStaleS p.snap env.ctx1 = true) :
    caches (decryptRun s p env).state = caches s := by
  obtain ⟨sig, c1, dec, c2⟩ := env
  dsimp only at h1
  cases sig with
  | error e => rfl
  | ok b =>
    cases b
    · rfl
    · simp [decryptRun, h1, decryptFinally, caches]

/-- Helper: a decrypt run whose request set is non-empty (so the decryption
await actually happens) and that observes a stale context at its second
resumption point leaves the handle and clear-value caches unchanged. -/
theorem decrypt_caches_stale2 (s : EngineState) (p : DecrSnap) (env : DecrEnv)
    (hne : handlesToDecrypt p ≠ [])
    (h2 : isStaleS p.snap env.ctx2 = true) :
    caches (decryptRun s p env).state = caches s := by
  obtain ⟨sig, c1, dec, c2⟩ := env
  dsimp only at h2
  cases sig with
  | error e => rfl
  | ok b =>
    cases b
    · rfl
    · by_cases h1 : isStaleS p.snap c1
      · simp [decryptRun, h1, decryptFinally, caches]
      · cases dec with
        | error e => simp [decryptRun, h1, hne, decryptFinally, caches]
        | ok res => simp [decryptRun, h1, hne, h2, decryptFinally, caches]

/-- Helper: a refresh completion on the successful-fetch path whose
chain/address validity check fails commits nothing: the handle and
clear-value caches are unchanged. -/
theorem refresh_caches_invalid (s : EngineState) (q : RefreshSnap) (live : Ctx)
    (r1 r2 r3 : RawFetch) (h : refreshStillValid q live = false) :
    caches (refreshComplete s q live (.ok r1 r2 r3)) = caches s := by
  simp [refreshComplete, h, caches]

/-- C1 (amended): for decrypt, a change of owner, chain or contract address
observed at either resumption point (after the signature await, or — when the
request set is non-empty, so the decryption await happens — after the
decryption await) makes the run discard its result, leaving the handle and
clear-value caches unchanged.  For refresh, on the successful-fetch path,
a change of chain or contract address (the only components `isStillValid`
compares — an owner-only change is not detected, and the fetch-rejection
path overwrites the caches unconditionally) likewise leaves the caches
unchanged. -/
theorem c1_staleness_amended (sD : EngineState) (p : DecrSnap) (env : DecrEnv)
    (sR : EngineState) (q : RefreshSnap) (live : Ctx) (r1 r2 r3 : RawFetch)
    (hD : isStaleS p.snap env.ctx1 = true ∨
          (handlesToDecrypt p ≠ [] ∧ isStaleS p.snap env.ctx2 = true))
    (hR : refreshStillValid q live = false) :
    caches (decryptRun sD p env).state = caches sD ∧
    caches (refreshComplete sR q live (.ok r1 r2 r3)) = caches sR := by
  refine ⟨?_, refresh_caches_invalid sR q live r1 r2 r3 hR⟩
  rcases hD with h1 | ⟨hne, h2⟩
  · exact decrypt_caches_stale1 sD p env h1
  · exact decrypt_caches_stale2 sD p env hne h2

/-- C1 witness: a decrypt whose context went stale before its first
resumption, and a refresh completing under a changed chain/address. -/
theorem c1_staleness_amended_witness :
    (isStaleS (⟨snapA, some 5, none, none⟩ : DecrSnap).snap
       (⟨.ok true, ctxB, .ok (fun _ => some 1), ctxA⟩ : DecrEnv).ctx1 = true ∨
     (handlesToDecrypt ⟨snapA, some 5, none, none⟩ ≠ [] ∧
      isStaleS (⟨snapA, some 5, none, none⟩ : DecrSnap).snap
        (⟨.ok true, ctxB, .ok (fun _ => some 1), ctxA⟩ : DecrEnv).ctx2 = true)) ∧
    refreshStillValid rsnapA ctxB = false ∧
    (caches (decryptRun idleState ⟨snapA, some 5, none, none⟩
       ⟨.ok true, ctxB, .ok (fun _ => some 1), ctxA⟩).state = caches idleState ∧
     caches (refreshComplete idleState rsnapA ctxB
       (.ok (.ok (some 5)) (.ok none) (.ok none))) = caches idleState) :=
  ⟨Or.inl (by decide), by decide,
   c1_staleness_amended idleState ⟨snapA, some 5, none, none⟩
     ⟨.ok true, ctxB, .ok (fun _ => some 1), ctxA⟩ idleState rsnapA ctxB
     (.ok (some 5)) (.ok none) (.ok none) (Or.inl (by decide)) (by decide)⟩

/-- C1 counterexample: the claim as stated is false for refresh.  With the
chain and contract address unchanged but the owner (signer) switched from
100 to 200 mid-flight — so the synchronization context did change — the
completion still commits the fetched handles: the caches are NOT unchanged. -/
theorem c1_counterexample :
    (refreshStart idleState ⟨some 1, some 10, some 100, true⟩).2 = some ⟨1, 10⟩ ∧
    (⟨some 1, some 10, some 100, true⟩ : Ctx) ≠ ⟨some 1, some 10, some 200, true⟩ ∧
    caches (refreshComplete (refreshStart idleState ⟨some 1, some 10, some 100, true⟩).1
        ⟨1, 10⟩ ⟨some 1, some 10, some 200, true⟩
        (.ok (.ok (some 5)) (.ok (some 6)) (.ok (some 7)))) ≠
      caches (refreshStart idleState ⟨some 1, some 10, some 100, true⟩).1 := by
  decide


/-- C2 counterexample: in `c2state` the weekly-goal counter has a non-null
handle and is not fresh, so the claim requires `isDecrypted = false`; the
code's `isDecrypted` is nevertheless `true` (it never consults weeklyGoal). -/
theorem c2_counterexample :
    isDecrypted c2state = true ∧ specIsDecrypted c2state = false := by
  decide

/-- C2 (amended): `isDecrypted` is true iff the primary (sessionCount) handle
is present and is the null handle, or it is present, non-null and matches its
cached clear value while the totalMinutes handle is absent or matches its
cached clear value.  The weeklyGoal slots are never consulted: changing them
never changes `isDecrypted`. -/
theorem c2_isDecrypted_amended (s : EngineState) (wh : Option Nat)
    (cw : Option ClearValue) :
    (isDecrypted s = true ↔
      (s.sessionCountHandle = some 0 ∨
        (∃ h, s.sessionCountHandle = some h ∧ h ≠ 0 ∧
          s.clearSessionCount.map ClearValue.handle = some h ∧
          (s.totalMinutesHandle = none ∨
            (∃ m, s.totalMinutesHandle = some m ∧
              s.clearTotalMinutes.map ClearValue.handle = some m))))) ∧
    isDecrypted { s with weeklyGoalHandle := wh, clearWeeklyGoal := cw }
      = isDecrypted s := by
  refine ⟨?_, rfl⟩
  cases hsc : s.sessionCountHandle with
  | none => simp [isDecrypted, hsc]
  | some h =>
    by_cases h0 : h = 0
    · subst h0; simp [isDecrypted, hsc]
    · cases htm : s.totalMinutesHandle with
      | none => simp [isDecrypted, hsc, htm, h0]
      | some m => simp [isDecrypted, hsc, htm, h0]

/-- Helper: membership in one `handlesToDecrypt` entry. -/
theorem mem_decryptEntry (k a b : Nat) (o : Option Nat) :
    ((k, a) ∈ decryptEntry o b) ↔ (o = some k ∧ k ≠ 0 ∧ a = b) := by
  cases o with
  | none => simp [decryptEntry]
  | some h =>
    simp only [decryptEntry]
    by_cases h0 : h = 0
    · subst h0
      simp
      rintro rfl
      simp
    · simp [h0, Prod.ext_iff]
      constructor
      · rintro ⟨rfl, rfl⟩
        exact ⟨rfl, h0, rfl⟩
      · rintro ⟨hk, _, ha⟩
        cases hk
        exact ⟨rfl, ha⟩

/-- C3 (amended): the request set built by `decryptStats` consists of exactly
the non-null snapshotted handles — WITHOUT any freshness filtering — each
paired with the snapshotted contract address; the decryption capability is
invoked exactly when that set is non-empty (so a repeat decrypt over the same
non-null handles re-invokes it); and re-running the same decrypt with the
same decryption results commits identical clear values, leaving the caches
unchanged. -/
theorem c3_request_set_amended (p : DecrSnap) (k a : Nat) (s : EngineState)
    (env : DecrEnv) (res : Nat → Option Nat)
    (hsig : env.sigR = .ok true) (h1 : isStaleS p.snap env.ctx1 = false)
    (hres : env.decR = .ok res) (h2 : isStaleS p.snap env.ctx2 = false) :
    ((k, a) ∈ handlesToDecrypt p ↔
      (k ≠ 0 ∧ a = p.snap.address ∧
        (p.sh = some k ∨ p.th = some k ∨ p.wh = some k))) ∧
    ((decryptRun s p env).invoked = true ↔ handlesToDecrypt p ≠ []) ∧
    caches (decryptRun (decryptRun s p env).state p env).state
      = caches (decryptRun s p env).state := by
  obtain ⟨sig, c1, dec, c2⟩ := env
  dsimp only at hsig h1 hres h2
  subst hsig
  subst hres
  refine ⟨?_, ?_, ?_⟩
  · simp only [handlesToDecrypt, List.mem_append, mem_decryptEntry]
    tauto
  · by_cases he : handlesToDecrypt p = []
    · simp [decryptRun, h1, he, decryptFinally]
    · simp [decryptRun, h1, he, h2, decryptFinally]
  · by_cases he : handlesToDecrypt p = []
    · simp [decryptRun, h1, he, decryptFinally, caches]
    · obtain ⟨ps, sh, th, wh⟩ := p
      dsimp only at h1 h2 he ⊢
      cases sh <;> cases th <;> cases wh <;>
        simp [decryptRun, h1, he, h2, decryptFinally, caches]





/-- C3 counterexample: the request set is NOT "exactly the non-null handles
that are not already fresh" — the fresh weekly-goal handle 7 is still
included — and a second decrypt over an all-fresh state (request set per the
claim empty) still invokes the decryption capability. -/
theorem c3_counterexample :
    (decryptStart c3state ctxA).2 = some c3snap ∧
    handlesToDecrypt c3snap = [(5, 10), (7, 10)] ∧
    specRequestSet c3state 10 = [(5, 10)] ∧
    (decryptStart c3freshState ctxA).2 = some c3freshSnap ∧
    specRequestSet c3freshState 10 = [] ∧
    (decryptRun c3freshState c3freshSnap
      ⟨.ok true, ctxA, .ok (fun _ => some 1), ctxA⟩).invoked = true := by
  decide

/-- C3 witness: concrete instantiation of the amended request-set theorem. -/
theorem c3_request_set_amended_witness :
    (⟨.ok true, ctxA, .ok (fun _ => some 1), ctxA⟩ : DecrEnv).sigR = .ok true ∧
    isStaleS c3freshSnap.snap
      (⟨.ok true, ctxA, .ok (fun _ => some 1), ctxA⟩ : DecrEnv).ctx1 = false ∧
    (⟨.ok true, ctxA, .ok (fun _ => some 1), ctxA⟩ : DecrEnv).decR
      = .ok (fun _ => some 1) ∧
    isStaleS c3freshSnap.snap
      (⟨.ok true, ctxA, .ok (fun _ => some 1), ctxA⟩ : DecrEnv).ctx2 = false ∧
    (((5, 10) ∈ handlesToDecrypt c3freshSnap ↔
       (5 ≠ 0 ∧ 10 = c3freshSnap.snap.address ∧
         (c3freshSnap.sh = some 5 ∨ c3freshSnap.th = some 5 ∨
          c3freshSnap.wh = some 5))) ∧
     ((decryptRun c3freshState c3freshSnap
        ⟨.ok true, ctxA, .ok (fun _ => some 1), ctxA⟩).invoked = true ↔
       handlesToDecrypt c3freshSnap ≠ []) ∧
     caches (decryptRun (decryptRun c3freshState c3freshSnap
         ⟨.ok true, ctxA, .ok (fun _ => some 1), ctxA⟩).state c3freshSnap
         ⟨.ok true, ctxA, .ok (fun _ => some 1), ctxA⟩).state
       = caches (decryptRun c3freshState c3freshSnap
         ⟨.ok true, ctxA, .ok (fun _ => some 1), ctxA⟩).state) :=
  ⟨rfl, by decide, rfl, by decide,
   c3_request_set_amended c3freshSnap 5 10 c3freshState
     ⟨.ok true, ctxA, .ok (fun _ => some 1), ctxA⟩ (fun _ => some 1)
     rfl (by decide) rfl (by decide)⟩


/-- C5 (amended): a failing `logSession` or `setWeeklyGoal` classifies a
message and re-throws the error to the caller with the handle and clear-value
caches left at their pre-attempt values; a failing `resetStats` also leaves
the caches at their pre-attempt values but SWALLOWS the error (nothing is
re-thrown), reporting it only through the status message. -/
theorem c5_mutation_errors_amended (sL sG sR : EngineState) (pL pG pR : Snap)
    (envL envG : MutEnv) (envR : ResetEnv) (eL eG eR : String)
    (hL : mutFails pL envL = some eL) (hG : mutFails pG envG = some eG)
    (hR : envR.txR = .error eR) :
    (logRun sL pL envL).thrown = some eL ∧
    caches (logRun sL pL envL).state = caches sL ∧
    (setWeeklyGoalRun sG pG envG).thrown = some eG ∧
    caches (setWeeklyGoalRun sG pG envG).state = caches sG ∧
    (resetRun sR pR envR).thrown = none ∧
    caches (resetRun sR pR envR).state = caches sR ∧
    (resetRun sR pR envR).state.message = .failedReset eR := by
  obtain ⟨encL, cL1, txL, cL2⟩ := envL
  obtain ⟨encG, cG1, txG, cG2⟩ := envG
  obtain ⟨txRst, cR2⟩ := envR
  dsimp only at hL hG hR
  subst hR
  refine ⟨?_, ?_, ?_, ?_, rfl, rfl, rfl⟩ <;>
    [skip; skip; skip; skip] <;> first
  | · cases encL with
      | error e =>
        simp only [mutFails] at hL
        cases hL
        simp [logRun, caches]
      | ok u =>
        by_cases hst : isStaleS pL cL1
        · simp [mutFails, hst] at hL
        · cases txL with
          | error e =>
            simp only [mutFails, if_neg hst] at hL
            cases hL
            simp [logRun, hst, caches]
          | ok st => simp [mutFails, hst] at hL
  | · cases encG with
      | error e =>
        simp only [mutFails] at hG
        cases hG
        simp [setWeeklyGoalRun, caches]
      | ok u =>
        by_cases hst : isStaleS pG cG1
        · simp [mutFails, hst] at hG
        · cases txG with
          | error e =>
            simp only [mutFails, if_neg hst] at hG
            cases hG
            simp [setWeeklyGoalRun, hst, caches]
          | ok st => simp [mutFails, hst] at hG

/-- C5 counterexample: the claim as stated is false for `resetStats`.  With a
failing reset transaction the error is reported in the message but NOT
re-thrown to the caller (`thrown = none`), unlike `logSession` and
`setWeeklyGoal`. -/
theorem c5_counterexample :
    (resetRun { idleState with isResetting := true } snapA
      ⟨.error "network down", ctxA⟩).thrown = none ∧
    (resetRun { idleState with isResetting := true } snapA
      ⟨.error "network down", ctxA⟩).state.message = .failedReset "network down" ∧
    (logRun { idleState with isLoggingRef := true, isLogging := true } snapA
      ⟨.ok (), ctxA, .error "network down", ctxA⟩).thrown = some "network down" := by
  decide

/-- C5 witness: concrete failing runs of all three mutations. -/
theorem c5_mutation_errors_amended_witness :
    mutFails snapA (⟨.error "user rejected tx", ctxA, .ok none, ctxA⟩ : MutEnv)
      = some "user rejected tx" ∧
    mutFails snapA (⟨.ok (), ctxA, .error "out of gas", ctxA⟩ : MutEnv)
      = some "out of gas" ∧
    (⟨.error "boom", ctxA⟩ : ResetEnv).txR = .error "boom" ∧
    ((logRun idleState snapA ⟨.error "user rejected tx", ctxA, .ok none, ctxA⟩).thrown
        = some "user rejected tx" ∧
     caches (logRun idleState snapA
        ⟨.error "user rejected tx", ctxA, .ok none, ctxA⟩).state = caches idleState ∧
     (setWeeklyGoalRun idleState snapA ⟨.ok (), ctxA, .error "out of gas", ctxA⟩).thrown
        = some "out of gas" ∧
     caches (setWeeklyGoalRun idleState snapA
        ⟨.ok (), ctxA, .error "out of gas", ctxA⟩).state = caches idleState ∧
     (resetRun idleState snapA ⟨.error "boom", ctxA⟩).thrown = none ∧
     caches (resetRun idleState snapA ⟨.error "boom", ctxA⟩).state = caches idleState ∧
     (resetRun idleState snapA ⟨.error "boom", ctxA⟩).state.message
        = .failedReset "boom") :=
  ⟨by decide, by decide, rfl,
   c5_mutation_errors_amended idleState idleState idleState snapA snapA snapA
     ⟨.error "user rejected tx", ctxA, .ok none, ctxA⟩
     ⟨.ok (), ctxA, .error "out of gas", ctxA⟩ ⟨.error "boom", ctxA⟩
     "user rejected tx" "out of gas" "boom" (by decide) (by decide) rfl⟩


/-- C6 counterexample: the claim as stated is false for `setWeeklyGoal`.
With a goal mutation already in flight (`isSettingGoal = true`) a new
`setWeeklyGoal` invocation is NOT dropped: it starts a run and mutates the
state (busy flag and message). -/
theorem c6_counterexample :
    c6state.isSettingGoal = true ∧
    (setWeeklyGoalStart c6state ctxA 30).2.isSome = true ∧
    (setWeeklyGoalStart c6state ctxA 30).1 ≠ c6state := by
  decide

/-- C6 (amended): only `logSession` drops a same-kind concurrent invocation
(via `isLoggingRef`); `setWeeklyGoal` and `resetStats` have no same-kind
guard and start a new run even while one of the same kind is in flight. -/
theorem c6_same_kind_amended (s1 s2 s3 : EngineState) (ctx : Ctx) (m g : Int)
    (a w : Nat)
    (h1 : s1.isLoggingRef = true) (_h2 : s2.isSettingGoal = true)
    (_h3 : s3.isResetting = true)
    (ha : ctx.address = some a) (hw : ctx.signer = some w)
    (hi : ctx.fhevmInstance = true) (hg : 0 < g) :
    logSessionStart s1 ctx m = (s1, none) ∧
    (setWeeklyGoalStart s2 ctx g).2.isSome = true ∧
    (resetStart s3 ctx).2.isSome = true := by
  obtain ⟨cid, addr, sg, inst⟩ := ctx
  dsimp only at ha hw hi
  subst ha
  subst hw
  subst hi
  refine ⟨?_, ?_, ?_⟩
  · simp [logSessionStart, h1]
  · have hng : ¬ g ≤ 0 := not_le.mpr hg
    simp [setWeeklyGoalStart, hng]
  · simp [resetStart]

/-- C6 witness: concrete in-flight mutations of each kind. -/
theorem c6_same_kind_amended_witness :
    ({ idleState with isLoggingRef := true } : EngineState).isLoggingRef = true ∧
    c6state.isSettingGoal = true ∧
    ({ idleState with isResetting := true } : EngineState).isResetting = true ∧
    ctxA.address = some 10 ∧ ctxA.signer = some 100 ∧
    ctxA.fhevmInstance = true ∧ (0 : Int) < 10 ∧
    (logSessionStart { idleState with isLoggingRef := true } ctxA 10
       = ({ idleState with isLoggingRef := true }, none) ∧
     (setWeeklyGoalStart c6state ctxA 10).2.isSome = true ∧
     (resetStart { idleState with isResetting := true } ctxA).2.isSome = true) :=
  ⟨by decide, by decide, by decide, by decide, by decide, by decide, by decide,
   c6_same_kind_amended { idleState with isLoggingRef := true } c6state
     { idleState with isResetting := true } ctxA 10 10 10 100
     (by decide) (by decide) (by decide) (by decide) (by decide) (by decide)
     (by decide)⟩
